import Mathlib

/-!
Verification of the bevy_hanabi effect-asset and clone-modifier subsystem.

The Rust sources embedded here are `src/asset.rs` (the `EffectAsset`
builder API, accessors and particle-layout derivation) and
`src/modifier/clone.rs` (the `CloneModifier` and its code generation).
Supporting types that live elsewhere in the repository (`ModifierContext`,
`ParticleGroupSet`, `ParticleLayout`, `calc_func_id`, the shader writer and
the RON serialization) are modelled from the specification, as indicated on
each definition.

Machine floats (`f32`) are embedded as rationals; `u32` values as naturals.
Rust panics (assertion failures) are embedded as `Option.none`.
-/

namespace Hanabi

/-- Modelled from the spec: `ModifierContext`, a bit-set over
{Init, Update, Render} (the phases a modifier is eligible to run in). -/
structure ModifierContext where
  init : Bool
  update : Bool
  render : Bool
deriving DecidableEq, Repr

/-- The single-bit `Init` phase flag. -/
def ModifierContext.Init : ModifierContext := ⟨true, false, false⟩

/-- The single-bit `Update` phase flag. -/
def ModifierContext.Update : ModifierContext := ⟨false, true, false⟩

/-- The single-bit `Render` phase flag. -/
def ModifierContext.Render : ModifierContext := ⟨false, false, true⟩

/-- Bit-set containment: every bit set in `sub` is set in `c`
(the `bitflags` `contains` used by the registration asserts). -/
def ModifierContext.contains (c sub : ModifierContext) : Bool :=
  (!sub.init || c.init) && (!sub.update || c.update) && (!sub.render || c.render)

/-- Number of phase bits set in the bit-set. -/
def ModifierContext.bitCount (c : ModifierContext) : Nat :=
  (if c.init then 1 else 0) + (if c.update then 1 else 0) + (if c.render then 1 else 0)

/-- Modelled from the spec: `ParticleGroupSet`, a fixed-width bit-vector over
group indices, with helpers `single`, `all` and `contains`. -/
structure ParticleGroupSet where
  mask : Nat
deriving DecidableEq, Repr

/-- The group set holding exactly group `g`. -/
def ParticleGroupSet.single (g : Nat) : ParticleGroupSet := ⟨2 ^ g⟩

/-- The group set holding every supported group (32 groups). -/
def ParticleGroupSet.all : ParticleGroupSet := ⟨2 ^ 32 - 1⟩

/-- Membership test on the bit-vector. -/
def ParticleGroupSet.contains (s : ParticleGroupSet) (g : Nat) : Bool :=
  s.mask.testBit g

/-- Modelled from the spec: an `Attribute` from the fixed registry of named,
typed per-particle fields. Identity is the name; the component count
determines GPU size and alignment per the spec's vector rules. -/
structure Attribute where
  name : String
  numComponents : Nat
deriving DecidableEq, Repr

/-- GPU alignment of an attribute: 1 component = 4, 2 = 8, 3 or 4 = 16. -/
def Attribute.align (a : Attribute) : Nat :=
  if a.numComponents ≤ 1 then 4 else if a.numComponents = 2 then 8 else 16

/-- GPU size of an attribute, following the same vector rule as alignment. -/
def Attribute.size (a : Attribute) : Nat :=
  if a.numComponents ≤ 1 then 4 else if a.numComponents = 2 then 8 else 16

/-- The particle age attribute (reset to zero by the clone modifier). -/
def Attribute.AGE : Attribute := ⟨"age", 1⟩

/-- The particle position attribute. -/
def Attribute.POSITION : Attribute := ⟨"position", 3⟩

/-- The particle velocity attribute. -/
def Attribute.VELOCITY : Attribute := ⟨"velocity", 3⟩

/-- The particle lifetime attribute. -/
def Attribute.LIFETIME : Attribute := ⟨"lifetime", 1⟩

/-- One entry of a built layout: name, byte offset, byte size, alignment. -/
structure LayoutEntry where
  name : String
  offset : Nat
  size : Nat
  align : Nat
deriving DecidableEq, Repr

/-- A built particle layout: packed entries plus the padded total size. -/
structure ParticleLayout where
  entries : List LayoutEntry
  totalSize : Nat
deriving DecidableEq, Repr

/-- Whether the layout holds an entry for the given attribute
(`ParticleLayout::contains`). -/
def ParticleLayout.containsAttr (l : ParticleLayout) (a : Attribute) : Bool :=
  l.entries.any fun e => e.name = a.name

/-- `CloneModifier` from `src/src/modifier/clone.rs`: duplicates a particle
into a destination group every `spawn_period` seconds (every frame when the
period is not positive). -/
structure CloneModifier where
  spawn_period : ℚ
  destination_group : Nat
deriving DecidableEq, Repr

/-- `CloneModifier::new`. -/
def CloneModifier.new (spawn_period : ℚ) (destination_group : Nat) : CloneModifier :=
  ⟨spawn_period, destination_group⟩

/-- The content hashed by `impl Hash for CloneModifier`
(`FloatOrd(spawn_period)` then `destination_group`). -/
def CloneModifier.hashContent (c : CloneModifier) : ℚ × Nat :=
  (c.spawn_period, c.destination_group)

/-- Injective encoding of a rational into a natural (numerator sign bit,
numerator magnitude, denominator). -/
def encodeRat (q : ℚ) : Nat :=
  Nat.pair (q.num.natAbs * 2 + if q.num < 0 then 1 else 0) q.den

/-- Modelled from the spec: `calc_func_id` (not under `src/`), the
deterministic, collision-free content fingerprint used to key the
define-once function cache.  The fingerprinted content is exactly what the
`Hash` impl in `src/src/modifier/clone.rs` feeds to the hasher. -/
def calc_func_id (c : CloneModifier) : Nat :=
  Nat.pair (encodeRat c.hashContent.1) c.hashContent.2

/-- Generated body of the duplication function, from the closure in
`CloneModifier::apply`: the destination group is interpolated into the
WGSL text and the AGE-reset line is present when the active particle layout
holds the AGE attribute, else the empty string. -/
structure CloneFnBody where
  dest : Nat
  ageResetCode : String
deriving DecidableEq, Repr

/-- The `age_reset_code` computed in `CloneModifier::apply`. -/
def ageResetCode (layout : ParticleLayout) : String :=
  if layout.containsAttr Attribute.AGE then
    "particle_buffer.particles[index].age = 0.0;"
  else
    ""

/-- Build the duplication-function body for a destination group against the
active particle layout. -/
def mkCloneFnBody (dest : Nat) (layout : ParticleLayout) : CloneFnBody :=
  ⟨dest, ageResetCode layout⟩

/-- A statement appended to the shader's main code by `CloneModifier::apply`:
either one unconditional call of the duplication function, or the
period-counted loop of calls. -/
inductive MainStmt where
  | call (fnId : Nat)
  | periodLoop (fnId : Nat) (period : ℚ)
deriving DecidableEq, Repr

/-- The duplication-function id referenced by a main-code statement. -/
def MainStmt.fnIdOf : MainStmt → Nat
  | .call fnId => fnId
  | .periodLoop fnId _ => fnId

/-- The number of period-multiples in the half-open interval `(t - d, t]`,
as computed by the emitted WGSL
`max(0, i32(floor(t / P)) - i32(ceil((t - d) / P)) + 1)`. -/
def multipleCount (P t d : ℚ) : ℤ :=
  max 0 (⌊t / P⌋ - ⌈(t - d) / P⌉ + 1)

/-- Per-frame duplication-call count of a main-code statement at simulation
time `t` with frame delta `d`. -/
def MainStmt.callCount (s : MainStmt) (t d : ℚ) : ℤ :=
  match s with
  | .call _ => 1
  | .periodLoop _ P => multipleCount P t d

/-- Modelled from the spec: the code-generation context (`ShaderWriter`, not
under `src/`): the active particle layout, the append-only main-code buffer,
and the define-once registry of emitted functions keyed by content id. -/
structure ShaderWriter where
  particleLayout : ParticleLayout
  mainCode : List MainStmt
  emittedFns : List (Nat × CloneFnBody)
deriving DecidableEq, Repr

/-- A fresh writer for a phase, seeded with the active particle layout. -/
def ShaderWriter.new (layout : ParticleLayout) : ShaderWriter :=
  ⟨layout, [], []⟩

/-- Modelled from the spec: `make_fn`, the define-once function emission —
the body is registered at most once per distinct content id. -/
def ShaderWriter.make_fn (w : ShaderWriter) (fnId : Nat) (body : CloneFnBody) : ShaderWriter :=
  if w.emittedFns.any (fun p => p.1 = fnId) then w
  else { w with emittedFns := w.emittedFns ++ [(fnId, body)] }

/-- `CloneModifier::apply` from `src/src/modifier/clone.rs`: compute the
function id from the modifier content, emit the duplication function once,
then append to the main code either one unconditional call (period ≤ 0) or
the period-counted loop (period > 0). -/
def CloneModifier.apply (c : CloneModifier) (w : ShaderWriter) : ShaderWriter :=
  let fnId := calc_func_id c
  let w := w.make_fn fnId (mkCloneFnBody c.destination_group w.particleLayout)
  if c.spawn_period ≤ 0 then
    { w with mainCode := w.mainCode ++ [MainStmt.call fnId] }
  else
    { w with mainCode := w.mainCode ++ [MainStmt.periodLoop fnId c.spawn_period] }

/-- The main-code statement a clone modifier appends, as a function of the
modifier alone. -/
def cloneStmt (c : CloneModifier) : MainStmt :=
  if c.spawn_period ≤ 0 then MainStmt.call (calc_func_id c)
  else MainStmt.periodLoop (calc_func_id c) c.spawn_period

/-- Binary operator of an expression node. -/
inductive BinOp where
  | add
  | sub
  | mul
  | div
deriving DecidableEq, Repr

/-- Modelled from the spec: `graph::Value`, a typed scalar or vector
constant (floats embedded as rationals). -/
inductive Value where
  | scalar (q : ℚ)
  | vec2 (x y : ℚ)
  | vec3 (x y z : ℚ)
deriving DecidableEq, Repr

/-- Modelled from the spec: a CPU-evaluated value used by the spawner,
either a single constant or a uniform range. -/
inductive CpuValue where
  | single (q : ℚ)
  | uniform (lo hi : ℚ)
deriving DecidableEq, Repr

/-- Modelled from the spec: the `Spawner` configuration record. -/
structure Spawner where
  num_particles : CpuValue
  spawn_time : CpuValue
  period : CpuValue
  starts_active : Bool
  starts_immediately : Bool
deriving DecidableEq, Repr

/-- The default spawner configuration. -/
def Spawner.default : Spawner :=
  ⟨CpuValue.single 1, CpuValue.single 1, CpuValue.single 1, true, true⟩

/-- `SimulationSpace` from the asset metadata. -/
inductive SimulationSpace where
  | Global
  | Local
deriving DecidableEq, Repr

/-- `SimulationCondition` from `src/src/asset.rs`. -/
inductive SimulationCondition where
  | WhenVisible
  | Always
deriving DecidableEq, Repr

/-- `MotionIntegration` from `src/src/asset.rs`. -/
inductive MotionIntegration where
  | None
  | PreUpdate
  | PostUpdate
deriving DecidableEq, Repr

/-- `AlphaMode` from `src/src/asset.rs`: alpha blending, or alpha masking
with a cutoff expression handle. -/
inductive AlphaMode where
  | Blend
  | Mask (cutoff : Nat)
deriving DecidableEq, Repr

/-- Modelled from the spec: one node of the expression arena — a tagged
union of literal, built-in, attribute access and binary operation, with
operands referencing prior arena indices. -/
inductive ExprNode where
  | lit (v : Value)
  | builtinTime
  | attrNode (name : String)
  | binary (op : BinOp) (lhs rhs : Nat)
deriving DecidableEq, Repr

/-- Modelled from the spec: the expression `Module`, an append-only arena of
expression nodes. -/
abbrev Module := List ExprNode

/-- Modelled from the spec: an effect `Property` — name plus default typed
value. -/
structure Property where
  name : String
  default_value : Value
deriving DecidableEq, Repr

/-- `Property::new`. -/
def Property.new (name : String) (default_value : Value) : Property :=
  ⟨name, default_value⟩

/-- A modifier, embedded as a closed union: the concrete `CloneModifier`
from `src/src/modifier/clone.rs`, plus a generic variant ranging over every
possible declared phase set and attribute list (standing for the open set of
other `Modifier` implementations). -/
inductive MModifier where
  | clone (c : CloneModifier)
  | generic (ctx : ModifierContext) (attrs : List Attribute) (tag : Nat)
deriving DecidableEq, Repr

/-- `Modifier::context`: the declared phase set. A clone modifier declares
exactly `Update` (from `src/src/modifier/clone.rs`). -/
def MModifier.context : MModifier → ModifierContext
  | .clone _ => ModifierContext.Update
  | .generic ctx _ _ => ctx

/-- `Modifier::attributes`: the attributes the modifier declares. A clone
modifier declares none (from `src/src/modifier/clone.rs`). -/
def MModifier.attributes : MModifier → List Attribute
  | .clone _ => []
  | .generic _ attrs _ => attrs

/-- `GroupedModifier`: a modifier paired with the particle groups it
affects. -/
structure GroupedModifier where
  modifier : MModifier
  groups : ParticleGroupSet
deriving DecidableEq, Repr

/-- `EffectAsset` from `src/src/asset.rs`, with the fields in source
order. -/
structure EffectAsset where
  name : String
  capacities : List Nat
  spawner : Spawner
  z_layer_2d : ℚ
  simulation_space : SimulationSpace
  simulation_condition : SimulationCondition
  init_modifiers : List GroupedModifier
  update_modifiers : List GroupedModifier
  render_modifiers : List GroupedModifier
  properties : List Property
  motion_integration : MotionIntegration
  module : Module
  alpha_mode : AlphaMode
deriving DecidableEq, Repr

/-- The `Default` instance derived on `EffectAsset`. -/
def EffectAsset.default : EffectAsset :=
  { name := ""
    capacities := []
    spawner := Spawner.default
    z_layer_2d := 0
    simulation_space := SimulationSpace.Global
    simulation_condition := SimulationCondition.WhenVisible
    init_modifiers := []
    update_modifiers := []
    render_modifiers := []
    properties := []
    motion_integration := MotionIntegration.PostUpdate
    module := []
    alpha_mode := AlphaMode.Blend }

/-- `EffectAsset::new`: store capacities, spawner and module; every other
field takes its default. No validation is performed. -/
def EffectAsset.new (capacities : List Nat) (spawner : Spawner) (module : Module) :
    EffectAsset :=
  { EffectAsset.default with
    capacities := capacities
    spawner := spawner
    module := module }

/-- `EffectAsset::with_name`. -/
def EffectAsset.with_name (a : EffectAsset) (name : String) : EffectAsset :=
  { a with name := name }

/-- `EffectAsset::with_simulation_condition`. -/
def EffectAsset.with_simulation_condition (a : EffectAsset)
    (simulation_condition : SimulationCondition) : EffectAsset :=
  { a with simulation_condition := simulation_condition }

/-- `EffectAsset::with_simulation_space`. -/
def EffectAsset.with_simulation_space (a : EffectAsset)
    (simulation_space : SimulationSpace) : EffectAsset :=
  { a with simulation_space := simulation_space }

/-- `EffectAsset::with_alpha_mode`. -/
def EffectAsset.with_alpha_mode (a : EffectAsset) (alpha_mode : AlphaMode) :
    EffectAsset :=
  { a with alpha_mode := alpha_mode }

/-- `EffectAsset::add_property`: asserts no property of the same name
already exists, then appends. A failed assertion (Rust panic) is `none`. -/
def EffectAsset.add_property (a : EffectAsset) (name : String) (default_value : Value) :
    Option EffectAsset :=
  if a.properties.any (fun p => p.name = name) then none
  else some { a with properties := a.properties ++ [Property.new name default_value] }

/-- `EffectAsset::with_property`: chaining form of `add_property`. -/
def EffectAsset.with_property (a : EffectAsset) (name : String) (default_value : Value) :
    Option EffectAsset :=
  a.add_property name default_value

/-- `EffectAsset::init`: asserts the modifier declares the Init phase, then
stores it with the single-group-0 mask. -/
def EffectAsset.init (a : EffectAsset) (m : MModifier) : Option EffectAsset :=
  if m.context.contains ModifierContext.Init then
    some { a with init_modifiers := a.init_modifiers ++ [⟨m, ParticleGroupSet.single 0⟩] }
  else none

/-- `EffectAsset::update`: asserts the modifier declares the Update phase,
then stores it with the all-groups mask. -/
def EffectAsset.update (a : EffectAsset) (m : MModifier) : Option EffectAsset :=
  if m.context.contains ModifierContext.Update then
    some { a with update_modifiers := a.update_modifiers ++ [⟨m, ParticleGroupSet.all⟩] }
  else none

/-- `EffectAsset::update_groups`: stores the modifier with the given group
mask. The source performs no phase check on this path. -/
def EffectAsset.update_groups (a : EffectAsset) (m : MModifier) (groups : ParticleGroupSet) :
    EffectAsset :=
  { a with update_modifiers := a.update_modifiers ++ [⟨m, groups⟩] }

/-- `EffectAsset::add_modifier_to_groups`: asserts the context argument is
exactly `Init` or exactly `Update`, asserts the modifier declares that
phase, then stores into the matching list. -/
def EffectAsset.add_modifier_to_groups (a : EffectAsset) (context : ModifierContext)
    (m : MModifier) (groups : ParticleGroupSet) : Option EffectAsset :=
  if context = ModifierContext.Init ∨ context = ModifierContext.Update then
    if m.context.contains context then
      if context = ModifierContext.Init then
        some { a with init_modifiers := a.init_modifiers ++ [⟨m, groups⟩] }
      else
        some { a with update_modifiers := a.update_modifiers ++ [⟨m, groups⟩] }
    else none
  else none

/-- `EffectAsset::add_modifier`: `add_modifier_to_groups` with the
all-groups mask. -/
def EffectAsset.add_modifier (a : EffectAsset) (context : ModifierContext)
    (m : MModifier) : Option EffectAsset :=
  a.add_modifier_to_groups context m ParticleGroupSet.all

/-- `EffectAsset::render`: asserts the modifier declares the Render phase,
then stores it with the all-groups mask. -/
def EffectAsset.render (a : EffectAsset) (m : MModifier) : Option EffectAsset :=
  if m.context.contains ModifierContext.Render then
    some { a with render_modifiers := a.render_modifiers ++ [⟨m, ParticleGroupSet.all⟩] }
  else none

/-- `EffectAsset::render_groups`: asserts the modifier declares the Render
phase, then stores it with the given group mask. -/
def EffectAsset.render_groups (a : EffectAsset) (m : MModifier) (groups : ParticleGroupSet) :
    Option EffectAsset :=
  if m.context.contains ModifierContext.Render then
    some { a with render_modifiers := a.render_modifiers ++ [⟨m, groups⟩] }
  else none

/-- `EffectAsset::add_render_modifier`: asserts the modifier declares the
Render phase, then stores it with the all-groups mask. -/
def EffectAsset.add_render_modifier (a : EffectAsset) (m : MModifier) : Option EffectAsset :=
  if m.context.contains ModifierContext.Render then
    some { a with render_modifiers := a.render_modifiers ++ [⟨m, ParticleGroupSet.all⟩] }
  else none

/-- `EffectAsset::add_render_modifier_to_groups`: asserts the modifier
declares the Render phase, then stores it with the given group mask. -/
def EffectAsset.add_render_modifier_to_groups (a : EffectAsset) (m : MModifier)
    (groups : ParticleGroupSet) : Option EffectAsset :=
  if m.context.contains ModifierContext.Render then
    some { a with render_modifiers := a.render_modifiers ++ [⟨m, groups⟩] }
  else none

/-- `EffectAsset::modifiers`: all modifiers, init then update then render,
each in registration order. -/
def EffectAsset.modifiers (a : EffectAsset) : List MModifier :=
  (a.init_modifiers ++ a.update_modifiers ++ a.render_modifiers).map GroupedModifier.modifier

/-- `EffectAsset::init_modifiers` (accessor): the stored init-list modifiers
whose declared phase set holds Init. -/
def EffectAsset.initModifiers (a : EffectAsset) : List MModifier :=
  (a.init_modifiers.filter fun gm => gm.modifier.context.contains ModifierContext.Init).map
    GroupedModifier.modifier

/-- `EffectAsset::update_modifiers` (accessor): the stored update-list
modifiers whose declared phase set holds Update. -/
def EffectAsset.updateModifiers (a : EffectAsset) : List MModifier :=
  (a.update_modifiers.filter fun gm => gm.modifier.context.contains ModifierContext.Update).map
    GroupedModifier.modifier

/-- `EffectAsset::update_modifiers_for_group` (accessor): the stored
update-list modifiers whose group mask holds the given group and whose
declared phase set holds Update. -/
def EffectAsset.updateModifiersForGroup (a : EffectAsset) (group_index : Nat) :
    List MModifier :=
  (a.update_modifiers.filter fun gm =>
      gm.groups.contains group_index && gm.modifier.context.contains ModifierContext.Update).map
    GroupedModifier.modifier

/-- Modelled from the spec: the canonical packing key of the layout builder
— largest alignment first, then a fixed tie-break on the attribute name. -/
def attrKey (a : Attribute) : Lex (Nat × Lex (String × Nat)) :=
  toLex (16 - a.align, toLex (a.name, a.numComponents))

/-- The Boolean packing order used to sort attributes before assigning
offsets. -/
def attrLE (a b : Attribute) : Bool := decide (attrKey a ≤ attrKey b)

/-- Sort a list of attributes into canonical packing order. -/
def sortAttrs (l : List Attribute) : List Attribute := l.mergeSort attrLE

/-- Round `x` up to the next multiple of `a`. -/
def roundUp (x a : Nat) : Nat := if a = 0 then x else (x + a - 1) / a * a

/-- Greedy offset assignment over an already-sorted attribute list: each
offset is the smallest multiple of the entry's alignment at or past the
cursor, and the cursor advances by the entry's size. Returns the entries
and the final cursor. -/
def packAttrs : List Attribute → Nat → List LayoutEntry × Nat
  | [], cursor => ([], cursor)
  | a :: rest, cursor =>
    let off := roundUp cursor a.align
    let (es, fin) := packAttrs rest (off + a.size)
    (⟨a.name, off, a.size, a.align⟩ :: es, fin)

/-- The overall alignment of a layout: the maximum entry alignment (4 for an
empty layout). -/
def maxAlign (l : List Attribute) : Nat := l.foldr (fun a m => max a.align m) 4

/-- Modelled from the spec: `ParticleLayout::new/append/build` (not under
`src/`) — canonical packing order (largest alignment first, name
tie-break), greedy offsets, total size rounded up to the overall
alignment. -/
def buildLayout (attrs : List Attribute) : ParticleLayout :=
  let sorted := sortAttrs attrs
  let packed := packAttrs sorted 0
  ⟨packed.1, roundUp packed.2 (maxAlign sorted)⟩

/-- The attributes declared by an asset's modifiers, in registration order,
duplicates included. -/
def EffectAsset.attrList (a : EffectAsset) : List Attribute :=
  (a.modifiers.map MModifier.attributes).flatten

/-- `EffectAsset::particle_layout` from `src/src/asset.rs`: collect the set
of attributes declared by all registered modifiers across all phases, then
build the layout from that set. -/
def EffectAsset.particle_layout (a : EffectAsset) : ParticleLayout :=
  buildLayout a.attrList.dedup

/-- Modelled from the spec: the textual serialized form (RON) as a value
tree — strings, numbers, booleans, sequences, records and tagged unions. -/
inductive Ron where
  | str (s : String)
  | nat (n : Nat)
  | rat (q : ℚ)
  | bool (b : Bool)
  | seq (xs : List Ron)
  | record (fields : List (String × Ron))
  | tagged (tag : String) (args : List Ron)

/-- Encode a list elementwise into a serialized sequence. -/
def encodeList {α : Type} (e : α → Ron) (xs : List α) : Ron :=
  Ron.seq (xs.map e)

/-- Decode the elements of a serialized sequence one by one. -/
def decodeItems {α : Type} (d : Ron → Option α) : List Ron → Option (List α)
  | [] => some []
  | r :: rs =>
    match d r, decodeItems d rs with
    | some x, some xs => some (x :: xs)
    | _, _ => none

/-- Decode a serialized sequence elementwise. -/
def decodeList {α : Type} (d : Ron → Option α) : Ron → Option (List α)
  | .seq xs => decodeItems d xs
  | _ => none

/-- Decode a natural number. -/
def decodeNat : Ron → Option Nat
  | .nat n => some n
  | _ => none

/-- Encode a typed value. -/
def encodeValue : Value → Ron
  | .scalar q => .tagged "Scalar" [.rat q]
  | .vec2 x y => .tagged "Vec2" [.rat x, .rat y]
  | .vec3 x y z => .tagged "Vec3" [.rat x, .rat y, .rat z]

/-- Decode a typed value. -/
def decodeValue : Ron → Option Value
  | .tagged "Scalar" [.rat q] => some (.scalar q)
  | .tagged "Vec2" [.rat x, .rat y] => some (.vec2 x y)
  | .tagged "Vec3" [.rat x, .rat y, .rat z] => some (.vec3 x y z)
  | _ => none

/-- Encode a CPU value. -/
def encodeCpuValue : CpuValue → Ron
  | .single q => .tagged "Single" [.rat q]
  | .uniform lo hi => .tagged "Uniform" [.rat lo, .rat hi]

/-- Decode a CPU value. -/
def decodeCpuValue : Ron → Option CpuValue
  | .tagged "Single" [.rat q] => some (.single q)
  | .tagged "Uniform" [.rat lo, .rat hi] => some (.uniform lo hi)
  | _ => none

/-- Encode a spawner record. -/
def encodeSpawner (s : Spawner) : Ron :=
  .record [("num_particles", encodeCpuValue s.num_particles),
           ("spawn_time", encodeCpuValue s.spawn_time),
           ("period", encodeCpuValue s.period),
           ("starts_active", .bool s.starts_active),
           ("starts_immediately", .bool s.starts_immediately)]

/-- Decode a spawner record. -/
def decodeSpawner : Ron → Option Spawner
  | .record [("num_particles", np), ("spawn_time", st), ("period", p),
             ("starts_active", .bool sa), ("starts_immediately", .bool si)] =>
    match decodeCpuValue np, decodeCpuValue st, decodeCpuValue p with
    | some np, some st, some p => some ⟨np, st, p, sa, si⟩
    | _, _, _ => none
  | _ => none

/-- Encode the simulation-space tag. -/
def encodeSimSpace : SimulationSpace → Ron
  | .Global => .tagged "Global" []
  | .Local => .tagged "Local" []

/-- Decode the simulation-space tag. -/
def decodeSimSpace : Ron → Option SimulationSpace
  | .tagged "Global" [] => some .Global
  | .tagged "Local" [] => some .Local
  | _ => none

/-- Encode the simulation-condition tag. -/
def encodeSimCond : SimulationCondition → Ron
  | .WhenVisible => .tagged "WhenVisible" []
  | .Always => .tagged "Always" []

/-- Decode the simulation-condition tag. -/
def decodeSimCond : Ron → Option SimulationCondition
  | .tagged "WhenVisible" [] => some .WhenVisible
  | .tagged "Always" [] => some .Always
  | _ => none

/-- Encode the motion-integration tag. -/
def encodeMotion : MotionIntegration → Ron
  | .None => .tagged "None" []
  | .PreUpdate => .tagged "PreUpdate" []
  | .PostUpdate => .tagged "PostUpdate" []

/-- Decode the motion-integration tag. -/
def decodeMotion : Ron → Option MotionIntegration
  | .tagged "None" [] => some .None
  | .tagged "PreUpdate" [] => some .PreUpdate
  | .tagged "PostUpdate" [] => some .PostUpdate
  | _ => none

/-- Encode the alpha mode. -/
def encodeAlphaMode : AlphaMode → Ron
  | .Blend => .tagged "Blend" []
  | .Mask cutoff => .tagged "Mask" [.nat cutoff]

/-- Decode the alpha mode. -/
def decodeAlphaMode : Ron → Option AlphaMode
  | .tagged "Blend" [] => some .Blend
  | .tagged "Mask" [.nat cutoff] => some (.Mask cutoff)
  | _ => none

/-- Encode a binary operator tag. -/
def encodeBinOp : BinOp → Ron
  | .add => .tagged "Add" []
  | .sub => .tagged "Sub" []
  | .mul => .tagged "Mul" []
  | .div => .tagged "Div" []

/-- Decode a binary operator tag. -/
def decodeBinOp : Ron → Option BinOp
  | .tagged "Add" [] => some .add
  | .tagged "Sub" [] => some .sub
  | .tagged "Mul" [] => some .mul
  | .tagged "Div" [] => some .div
  | _ => none

/-- Encode one expression node. -/
def encodeExprNode : ExprNode → Ron
  | .lit v => .tagged "Literal" [encodeValue v]
  | .builtinTime => .tagged "Builtin" [.str "time"]
  | .attrNode name => .tagged "Attr" [.str name]
  | .binary op lhs rhs => .tagged "Binary" [encodeBinOp op, .nat lhs, .nat rhs]

/-- Decode one expression node. -/
def decodeExprNode : Ron → Option ExprNode
  | .tagged "Literal" [v] =>
    match decodeValue v with
    | some v => some (.lit v)
    | none => none
  | .tagged "Builtin" [.str "time"] => some .builtinTime
  | .tagged "Attr" [.str name] => some (.attrNode name)
  | .tagged "Binary" [op, .nat lhs, .nat rhs] =>
    match decodeBinOp op with
    | some op => some (.binary op lhs rhs)
    | none => none
  | _ => none

/-- Encode a property record. -/
def encodeProperty (p : Property) : Ron :=
  .record [("name", .str p.name), ("default_value", encodeValue p.default_value)]

/-- Decode a property record. -/
def decodeProperty : Ron → Option Property
  | .record [("name", .str name), ("default_value", v)] =>
    match decodeValue v with
    | some v => some ⟨name, v⟩
    | none => none
  | _ => none

/-- Encode an attribute by name and component count. -/
def encodeAttr (a : Attribute) : Ron :=
  .record [("name", .str a.name), ("components", .nat a.numComponents)]

/-- Decode an attribute. -/
def decodeAttr : Ron → Option Attribute
  | .record [("name", .str name), ("components", .nat n)] => some ⟨name, n⟩
  | _ => none

/-- Encode a modifier phase bit-set. -/
def encodeCtx (c : ModifierContext) : Ron :=
  .record [("init", .bool c.init), ("update", .bool c.update), ("render", .bool c.render)]

/-- Decode a modifier phase bit-set. -/
def decodeCtx : Ron → Option ModifierContext
  | .record [("init", .bool i), ("update", .bool u), ("render", .bool r)] => some ⟨i, u, r⟩
  | _ => none

/-- Encode a modifier as a name-tagged union. -/
def encodeMModifier : MModifier → Ron
  | .clone c => .tagged "CloneModifier" [.rat c.spawn_period, .nat c.destination_group]
  | .generic ctx attrs tag =>
    .tagged "Generic" [encodeCtx ctx, encodeList encodeAttr attrs, .nat tag]

/-- Decode a modifier from its name-tagged union. -/
def decodeMModifier : Ron → Option MModifier
  | .tagged "CloneModifier" [.rat p, .nat g] => some (.clone ⟨p, g⟩)
  | .tagged "Generic" [ctx, attrs, .nat tag] =>
    match decodeCtx ctx, decodeList decodeAttr attrs with
    | some ctx, some attrs => some (.generic ctx attrs tag)
    | _, _ => none
  | _ => none

/-- Encode a grouped modifier (modifier plus group bitmask). -/
def encodeGroupedModifier (gm : GroupedModifier) : Ron :=
  .record [("modifier", encodeMModifier gm.modifier), ("groups", .nat gm.groups.mask)]

/-- Decode a grouped modifier. -/
def decodeGroupedModifier : Ron → Option GroupedModifier
  | .record [("modifier", m), ("groups", .nat mask)] =>
    match decodeMModifier m with
    | some m => some ⟨m, ⟨mask⟩⟩
    | none => none
  | _ => none

/-- Modelled from the spec: serialize an `EffectAsset` to the schema record
of §6 (the RON form produced by the serde derive, which is not under
`src/`). -/
def encodeEffectAsset (a : EffectAsset) : Ron :=
  .record [("name", .str a.name),
           ("capacities", encodeList Ron.nat a.capacities),
           ("spawner", encodeSpawner a.spawner),
           ("z_layer_2d", .rat a.z_layer_2d),
           ("simulation_space", encodeSimSpace a.simulation_space),
           ("simulation_condition", encodeSimCond a.simulation_condition),
           ("init_modifiers", encodeList encodeGroupedModifier a.init_modifiers),
           ("update_modifiers", encodeList encodeGroupedModifier a.update_modifiers),
           ("render_modifiers", encodeList encodeGroupedModifier a.render_modifiers),
           ("properties", encodeList encodeProperty a.properties),
           ("motion_integration", encodeMotion a.motion_integration),
           ("module", encodeList encodeExprNode a.module),
           ("alpha_mode", encodeAlphaMode a.alpha_mode)]

/-- Decode a string. -/
def decodeStr : Ron → Option String
  | .str s => some s
  | _ => none

/-- Decode a rational number. -/
def decodeRatVal : Ron → Option ℚ
  | .rat q => some q
  | _ => none

/-- Take the next record field, which must carry the expected key, and
return its value with the remaining fields. -/
def takeField (key : String) : List (String × Ron) → Option (Ron × List (String × Ron))
  | (k, v) :: rest => if k = key then some (v, rest) else none
  | [] => none

/-- First slice of the asset record: name, capacities, spawner, 2D layer. -/
structure AssetFields1 where
  name : String
  capacities : List Nat
  spawner : Spawner
  z_layer_2d : ℚ

/-- Second slice: simulation metadata and the init/update modifier lists. -/
structure AssetFields2 where
  simulation_space : SimulationSpace
  simulation_condition : SimulationCondition
  init_modifiers : List GroupedModifier
  update_modifiers : List GroupedModifier

/-- Third slice: render modifiers, properties, motion integration. -/
structure AssetFields3 where
  render_modifiers : List GroupedModifier
  properties : List Property
  motion_integration : MotionIntegration

/-- Fourth slice: expression module and alpha mode. -/
structure AssetFields4 where
  module : Module
  alpha_mode : AlphaMode

/-- Decode the first slice of the schema record. -/
def decodeFields1 (fs : List (String × Ron)) :
    Option (AssetFields1 × List (String × Ron)) :=
  (takeField "name" fs).bind fun p1 =>
  (decodeStr p1.1).bind fun name =>
  (takeField "capacities" p1.2).bind fun p2 =>
  (decodeList decodeNat p2.1).bind fun capacities =>
  (takeField "spawner" p2.2).bind fun p3 =>
  (decodeSpawner p3.1).bind fun spawner =>
  (takeField "z_layer_2d" p3.2).bind fun p4 =>
  (decodeRatVal p4.1).bind fun z_layer_2d =>
  some (⟨name, capacities, spawner, z_layer_2d⟩, p4.2)

/-- Decode the second slice of the schema record. -/
def decodeFields2 (fs : List (String × Ron)) :
    Option (AssetFields2 × List (String × Ron)) :=
  (takeField "simulation_space" fs).bind fun p1 =>
  (decodeSimSpace p1.1).bind fun simulation_space =>
  (takeField "simulation_condition" p1.2).bind fun p2 =>
  (decodeSimCond p2.1).bind fun simulation_condition =>
  (takeField "init_modifiers" p2.2).bind fun p3 =>
  (decodeList decodeGroupedModifier p3.1).bind fun init_modifiers =>
  (takeField "update_modifiers" p3.2).bind fun p4 =>
  (decodeList decodeGroupedModifier p4.1).bind fun update_modifiers =>
  some (⟨simulation_space, simulation_condition, init_modifiers, update_modifiers⟩, p4.2)

/-- Decode the third slice of the schema record. -/
def decodeFields3 (fs : List (String × Ron)) :
    Option (AssetFields3 × List (String × Ron)) :=
  (takeField "render_modifiers" fs).bind fun p1 =>
  (decodeList decodeGroupedModifier p1.1).bind fun render_modifiers =>
  (takeField "properties" p1.2).bind fun p2 =>
  (decodeList decodeProperty p2.1).bind fun properties =>
  (takeField "motion_integration" p2.2).bind fun p3 =>
  (decodeMotion p3.1).bind fun motion_integration =>
  some (⟨render_modifiers, properties, motion_integration⟩, p3.2)

/-- Decode the fourth slice of the schema record. -/
def decodeFields4 (fs : List (String × Ron)) :
    Option (AssetFields4 × List (String × Ron)) :=
  (takeField "module" fs).bind fun p1 =>
  (decodeList decodeExprNode p1.1).bind fun module =>
  (takeField "alpha_mode" p1.2).bind fun p2 =>
  (decodeAlphaMode p2.1).bind fun alpha_mode =>
  some (⟨module, alpha_mode⟩, p2.2)

/-- Modelled from the spec: decode an `EffectAsset` from the schema record
of §6, failing on any malformed or missing field. -/
def decodeEffectAsset : Ron → Option EffectAsset
  | .record fs0 =>
    (decodeFields1 fs0).bind fun q1 =>
    (decodeFields2 q1.2).bind fun q2 =>
    (decodeFields3 q2.2).bind fun q3 =>
    (decodeFields4 q3.2).bind fun q4 =>
    if q4.2.isEmpty then
      some ⟨q1.1.name, q1.1.capacities, q1.1.spawner, q1.1.z_layer_2d,
        q2.1.simulation_space, q2.1.simulation_condition, q2.1.init_modifiers,
        q2.1.update_modifiers, q3.1.render_modifiers, q3.1.properties,
        q3.1.motion_integration, q4.1.module, q4.1.alpha_mode⟩
    else none
  | _ => none

/-- `EffectAsset::render_modifiers` (accessor): the stored render-list
modifiers (the `as_render` downcast of the source is the identity on this
embedding's closed modifier union). -/
def EffectAsset.renderModifiers (a : EffectAsset) : List MModifier :=
  a.render_modifiers.map GroupedModifier.modifier

theorem attrKey_inj {a b : Attribute} (h : attrKey a = attrKey b) : a = b := by
  have h' : (16 - a.align, toLex (a.name, a.numComponents)) =
      (16 - b.align, toLex (b.name, b.numComponents)) := h
  have h2 : toLex (a.name, a.numComponents) = toLex (b.name, b.numComponents) :=
    congrArg Prod.snd h'
  have h3 : (a.name, a.numComponents) = (b.name, b.numComponents) := h2
  cases a
  cases b
  simp only [Prod.mk.injEq] at h3
  simp only [Attribute.mk.injEq]
  exact h3

theorem attrLE_trans (a b c : Attribute) (hab : attrLE a b) (hbc : attrLE b c) :
    attrLE a c := by
  simp only [attrLE, decide_eq_true_eq] at hab hbc ⊢
  exact le_trans hab hbc

theorem attrLE_total (a b : Attribute) : attrLE a b || attrLE b a := by
  simp only [attrLE, Bool.or_eq_true, decide_eq_true_eq]
  exact le_total _ _

theorem attrLE_antisymm (a b : Attribute) (hab : attrLE a b = true)
    (hba : attrLE b a = true) : a = b := by
  simp only [attrLE, decide_eq_true_eq] at hab hba
  exact attrKey_inj (le_antisymm hab hba)

theorem sortAttrs_congr_perm {l₁ l₂ : List Attribute} (h : l₁.Perm l₂) :
    sortAttrs l₁ = sortAttrs l₂ := by
  haveI : IsAntisymm Attribute (fun a b => attrLE a b = true) := ⟨attrLE_antisymm⟩
  exact List.eq_of_perm_of_sorted
    ((List.mergeSort_perm l₁ attrLE).trans (h.trans (List.mergeSort_perm l₂ attrLE).symm))
    (List.sorted_mergeSort attrLE_trans attrLE_total l₁)
    (List.sorted_mergeSort attrLE_trans attrLE_total l₂)

theorem buildLayout_congr_perm {l₁ l₂ : List Attribute} (h : l₁.Perm l₂) :
    buildLayout l₁ = buildLayout l₂ := by
  simp only [buildLayout, sortAttrs_congr_perm h]

theorem dedup_perm_of_toFinset_eq {l₁ l₂ : List Attribute}
    (h : l₁.toFinset = l₂.toFinset) : l₁.dedup.Perm l₂.dedup := by
  have hv := congrArg Finset.val h
  simp only [List.toFinset, Multiset.toFinset, Multiset.coe_dedup] at hv
  exact Multiset.coe_eq_coe.mp hv

theorem decodeItems_encode {α : Type} (d : Ron → Option α) (e : α → Ron)
    (h : ∀ x, d (e x) = some x) (xs : List α) :
    decodeItems d (xs.map e) = some xs := by
  induction xs with
  | nil => rfl
  | cons x xs ih => simp [decodeItems, h, ih]

theorem decodeList_encodeList {α : Type} (d : Ron → Option α) (e : α → Ron)
    (h : ∀ x, d (e x) = some x) (xs : List α) :
    decodeList d (encodeList e xs) = some xs := by
  simp [decodeList, encodeList, decodeItems_encode d e h]

theorem decodeValue_encode (v : Value) : decodeValue (encodeValue v) = some v := by
  cases v <;> rfl

theorem decodeCpuValue_encode (v : CpuValue) :
    decodeCpuValue (encodeCpuValue v) = some v := by
  cases v <;> rfl

theorem decodeSpawner_encode (s : Spawner) : decodeSpawner (encodeSpawner s) = some s := by
  cases s
  simp [encodeSpawner, decodeSpawner, decodeCpuValue_encode]

theorem decodeSimSpace_encode (s : SimulationSpace) :
    decodeSimSpace (encodeSimSpace s) = some s := by
  cases s <;> rfl

theorem decodeSimCond_encode (s : SimulationCondition) :
    decodeSimCond (encodeSimCond s) = some s := by
  cases s <;> rfl

theorem decodeMotion_encode (m : MotionIntegration) :
    decodeMotion (encodeMotion m) = some m := by
  cases m <;> rfl

theorem decodeAlphaMode_encode (m : AlphaMode) :
    decodeAlphaMode (encodeAlphaMode m) = some m := by
  cases m <;> rfl

theorem decodeBinOp_encode (op : BinOp) : decodeBinOp (encodeBinOp op) = some op := by
  cases op <;> rfl

theorem decodeExprNode_encode (n : ExprNode) :
    decodeExprNode (encodeExprNode n) = some n := by
  cases n with
  | lit v => simp [encodeExprNode, decodeExprNode, decodeValue_encode]
  | builtinTime => rfl
  | attrNode name => rfl
  | binary op lhs rhs => simp [encodeExprNode, decodeExprNode, decodeBinOp_encode]

theorem decodeProperty_encode (p : Property) :
    decodeProperty (encodeProperty p) = some p := by
  cases p
  simp [encodeProperty, decodeProperty, decodeValue_encode]

theorem decodeAttr_encode (a : Attribute) : decodeAttr (encodeAttr a) = some a := by
  cases a
  rfl

theorem decodeCtx_encode (c : ModifierContext) : decodeCtx (encodeCtx c) = some c := by
  cases c
  rfl

theorem decodeMModifier_encode (m : MModifier) :
    decodeMModifier (encodeMModifier m) = some m := by
  cases m with
  | clone c => cases c; rfl
  | generic ctx attrs tag =>
    simp [encodeMModifier, decodeMModifier, decodeCtx_encode,
      decodeList_encodeList decodeAttr encodeAttr decodeAttr_encode]

theorem decodeGroupedModifier_encode (gm : GroupedModifier) :
    decodeGroupedModifier (encodeGroupedModifier gm) = some gm := by
  cases gm with
  | mk m g =>
    cases g
    simp [encodeGroupedModifier, decodeGroupedModifier, decodeMModifier_encode]

theorem takeField_cons (k : String) (v : Ron) (rest : List (String × Ron)) :
    takeField k ((k, v) :: rest) = some (v, rest) := by
  simp [takeField]

theorem decodeFields1_encode (name : String) (caps : List Nat) (sp : Spawner)
    (z : ℚ) (rest : List (String × Ron)) :
    decodeFields1 (("name", Ron.str name) :: ("capacities", encodeList Ron.nat caps) ::
      ("spawner", encodeSpawner sp) :: ("z_layer_2d", Ron.rat z) :: rest) =
      some (⟨name, caps, sp, z⟩, rest) := by
  simp only [decodeFields1, takeField_cons, Option.some_bind, decodeStr,
    decodeList_encodeList decodeNat Ron.nat (fun _ => rfl), decodeSpawner_encode,
    decodeRatVal]

theorem decodeFields2_encode (ss : SimulationSpace) (sc : SimulationCondition)
    (im um : List GroupedModifier) (rest : List (String × Ron)) :
    decodeFields2 (("simulation_space", encodeSimSpace ss) ::
      ("simulation_condition", encodeSimCond sc) ::
      ("init_modifiers", encodeList encodeGroupedModifier im) ::
      ("update_modifiers", encodeList encodeGroupedModifier um) :: rest) =
      some (⟨ss, sc, im, um⟩, rest) := by
  simp only [decodeFields2, takeField_cons, Option.some_bind, decodeSimSpace_encode,
    decodeSimCond_encode,
    decodeList_encodeList decodeGroupedModifier encodeGroupedModifier
      decodeGroupedModifier_encode]

theorem decodeFields3_encode (rm : List GroupedModifier) (ps : List Property)
    (mi : MotionIntegration) (rest : List (String × Ron)) :
    decodeFields3 (("render_modifiers", encodeList encodeGroupedModifier rm) ::
      ("properties", encodeList encodeProperty ps) ::
      ("motion_integration", encodeMotion mi) :: rest) =
      some (⟨rm, ps, mi⟩, rest) := by
  simp only [decodeFields3, takeField_cons, Option.some_bind,
    decodeList_encodeList decodeGroupedModifier encodeGroupedModifier
      decodeGroupedModifier_encode,
    decodeList_encodeList decodeProperty encodeProperty decodeProperty_encode,
    decodeMotion_encode]

theorem decodeFields4_encode (mo : Module) (am : AlphaMode)
    (rest : List (String × Ron)) :
    decodeFields4 (("module", encodeList encodeExprNode mo) ::
      ("alpha_mode", encodeAlphaMode am) :: rest) =
      some (⟨mo, am⟩, rest) := by
  simp only [decodeFields4, takeField_cons, Option.some_bind,
    decodeList_encodeList decodeExprNode encodeExprNode decodeExprNode_encode,
    decodeAlphaMode_encode]

theorem decodeEffectAsset_encode (a : EffectAsset) :
    decodeEffectAsset (encodeEffectAsset a) = some a := by
  cases a
  simp only [encodeEffectAsset, decodeEffectAsset, decodeFields1_encode,
    decodeFields2_encode, decodeFields3_encode, decodeFields4_encode,
    Option.some_bind, List.isEmpty_nil, if_true]

theorem make_fn_mainCode (w : ShaderWriter) (fnId : Nat) (b : CloneFnBody) :
    (w.make_fn fnId b).mainCode = w.mainCode := by
  unfold ShaderWriter.make_fn
  split <;> rfl

theorem make_fn_particleLayout (w : ShaderWriter) (fnId : Nat) (b : CloneFnBody) :
    (w.make_fn fnId b).particleLayout = w.particleLayout := by
  unfold ShaderWriter.make_fn
  split <;> rfl

theorem make_fn_emittedFns_hit (w : ShaderWriter) (fnId : Nat) (b : CloneFnBody)
    (h : (w.emittedFns.any fun p => p.1 = fnId) = true) :
    (w.make_fn fnId b).emittedFns = w.emittedFns := by
  simp [ShaderWriter.make_fn, h]

theorem make_fn_emittedFns_fresh (w : ShaderWriter) (fnId : Nat) (b : CloneFnBody)
    (h : (w.emittedFns.any fun p => p.1 = fnId) = false) :
    (w.make_fn fnId b).emittedFns = w.emittedFns ++ [(fnId, b)] := by
  simp [ShaderWriter.make_fn, h]

theorem apply_mainCode (c : CloneModifier) (w : ShaderWriter) :
    (c.apply w).mainCode = w.mainCode ++ [cloneStmt c] := by
  by_cases hp : c.spawn_period ≤ 0 <;>
    simp [CloneModifier.apply, cloneStmt, make_fn_mainCode, hp]

theorem apply_emittedFns (c : CloneModifier) (w : ShaderWriter) :
    (c.apply w).emittedFns =
      (w.make_fn (calc_func_id c)
        (mkCloneFnBody c.destination_group w.particleLayout)).emittedFns := by
  by_cases hp : c.spawn_period ≤ 0 <;> simp [CloneModifier.apply, hp]

theorem apply_particleLayout (c : CloneModifier) (w : ShaderWriter) :
    (c.apply w).particleLayout = w.particleLayout := by
  by_cases hp : c.spawn_period ≤ 0 <;>
    simp [CloneModifier.apply, make_fn_particleLayout, hp]

theorem cloneStmt_fnIdOf (c : CloneModifier) : (cloneStmt c).fnIdOf = calc_func_id c := by
  unfold cloneStmt
  split <;> rfl

theorem new_particleLayout (L : ParticleLayout) :
    (ShaderWriter.new L).particleLayout = L := rfl

theorem apply_new_emittedFns (c : CloneModifier) (L : ParticleLayout) :
    (c.apply (ShaderWriter.new L)).emittedFns =
      [(calc_func_id c, mkCloneFnBody c.destination_group L)] := by
  rw [apply_emittedFns, make_fn_emittedFns_fresh _ _ _ (by simp [ShaderWriter.new])]
  rfl

theorem encodeRat_inj {p q : ℚ} (h : encodeRat p = encodeRat q) : p = q := by
  unfold encodeRat at h
  obtain ⟨hn, hd⟩ := Nat.pair_eq_pair.mp h
  have hnum : p.num = q.num := by
    by_cases hp : p.num < 0 <;> by_cases hq : q.num < 0 <;> simp [hp, hq] at hn <;> omega
  exact Rat.ext hnum hd

theorem calc_func_id_inj {c₁ c₂ : CloneModifier} (h : calc_func_id c₁ = calc_func_id c₂) :
    c₁ = c₂ := by
  unfold calc_func_id CloneModifier.hashContent at h
  obtain ⟨h₁, h₂⟩ := Nat.pair_eq_pair.mp h
  cases c₁
  cases c₂
  simp only [CloneModifier.mk.injEq]
  exact ⟨encodeRat_inj h₁, h₂⟩

/-- C1: `CloneModifier::apply` emits, per particle per frame, exactly one
unconditional duplication call when the period is not positive, and a loop
whose per-frame call count is `max(0, floor(t/P) - ceil((t-d)/P) + 1)` when
the period is positive; at P=1, t=2.5, d=0.016 that count is 0, and at
P=1, t=3, d=0.5 it is 1. -/
theorem C1_clone_apply_call_count (c : CloneModifier) (w : ShaderWriter) (t d : ℚ) :
    (c.spawn_period ≤ 0 →
      (c.apply w).mainCode = w.mainCode ++ [MainStmt.call (calc_func_id c)] ∧
      MainStmt.callCount (MainStmt.call (calc_func_id c)) t d = 1) ∧
    (0 < c.spawn_period →
      (c.apply w).mainCode =
        w.mainCode ++ [MainStmt.periodLoop (calc_func_id c) c.spawn_period] ∧
      MainStmt.callCount (MainStmt.periodLoop (calc_func_id c) c.spawn_period) t d =
        max 0 (⌊t / c.spawn_period⌋ - ⌈(t - d) / c.spawn_period⌉ + 1)) ∧
    multipleCount 1 (5 / 2) (2 / 125) = 0 ∧
    multipleCount 1 3 (1 / 2) = 1 := by
  refine ⟨fun h => ⟨?_, rfl⟩, fun h => ⟨?_, rfl⟩, ?_, ?_⟩
  · rw [apply_mainCode]
    simp [cloneStmt, h]
  · rw [apply_mainCode]
    simp [cloneStmt, not_le.mpr h]
  · have hc : ⌈(621 / 250 : ℚ)⌉ = (3 : ℤ) := by
      rw [Int.ceil_eq_iff]
      norm_num
    norm_num [multipleCount, hc]
  · have hc : ⌈(5 / 2 : ℚ)⌉ = (3 : ℤ) := by
      rw [Int.ceil_eq_iff]
      norm_num
    norm_num [multipleCount, hc]

/-- C1 witness: the theorem evaluated at an every-frame clone (period 0), a
periodic clone (period 1), and the two concrete count instances. -/
theorem C1_clone_apply_call_count_witness :
    (CloneModifier.new 0 1 |>.apply (ShaderWriter.new ⟨[], 0⟩)).mainCode =
      [MainStmt.call (calc_func_id (CloneModifier.new 0 1))] ∧
    (CloneModifier.new 1 2 |>.apply (ShaderWriter.new ⟨[], 0⟩)).mainCode =
      [MainStmt.periodLoop (calc_func_id (CloneModifier.new 1 2)) 1] ∧
    multipleCount 1 (5 / 2) (2 / 125) = 0 ∧
    multipleCount 1 3 (1 / 2) = 1 := by
  have h₀ := C1_clone_apply_call_count (CloneModifier.new 0 1) (ShaderWriter.new ⟨[], 0⟩) 0 0
  have h₁ := C1_clone_apply_call_count (CloneModifier.new 1 2) (ShaderWriter.new ⟨[], 0⟩) 0 0
  refine ⟨?_, ?_, h₀.2.2.1, h₀.2.2.2⟩
  · have := (h₀.1 (by norm_num [CloneModifier.new])).1
    simpa [ShaderWriter.new] using this
  · have := (h₁.2.1 (by norm_num [CloneModifier.new])).1
    simpa [ShaderWriter.new] using this

/-- C2 counterexample: the function id is NOT derived from the destination
group alone when the period is not positive — two clone modifiers with the
same destination group and non-positive periods 0 and -1 still get distinct
function ids, because the hash always includes the period. -/
theorem C2_counterexample_nonpositive_period_changes_id :
    (CloneModifier.new 0 5).spawn_period ≤ 0 ∧
    (CloneModifier.new (-1) 5).spawn_period ≤ 0 ∧
    (CloneModifier.new 0 5).destination_group =
      (CloneModifier.new (-1) 5).destination_group ∧
    calc_func_id (CloneModifier.new 0 5) ≠ calc_func_id (CloneModifier.new (-1) 5) := by
  refine ⟨by norm_num [CloneModifier.new], by norm_num [CloneModifier.new], rfl, fun h => ?_⟩
  have h₂ := calc_func_id_inj h
  simp only [CloneModifier.new, CloneModifier.mk.injEq] at h₂
  exact absurd h₂.1 (by norm_num)

/-- C2 (amended): the duplication-function id is a collision-free
fingerprint of the pair (period, destination group) — for all periods, not
only positive ones. Two clone modifiers with identical period and
destination share one id, so applying both emits the function body once
with both call sites referencing that id; modifiers differing in
destination group get distinct ids and two emitted function bodies. -/
theorem C2_func_id_dedup (c₁ c₂ : CloneModifier) (L : ParticleLayout) :
    (calc_func_id c₁ = calc_func_id c₂ ↔ c₁ = c₂) ∧
    (c₁.spawn_period = c₂.spawn_period → c₁.destination_group = c₂.destination_group →
      calc_func_id c₁ = calc_func_id c₂ ∧
      (c₂.apply (c₁.apply (ShaderWriter.new L))).emittedFns =
        [(calc_func_id c₁, mkCloneFnBody c₁.destination_group L)] ∧
      (c₂.apply (c₁.apply (ShaderWriter.new L))).mainCode.map MainStmt.fnIdOf =
        [calc_func_id c₁, calc_func_id c₁]) ∧
    (c₁.destination_group ≠ c₂.destination_group →
      calc_func_id c₁ ≠ calc_func_id c₂ ∧
      (c₂.apply (c₁.apply (ShaderWriter.new L))).emittedFns =
        [(calc_func_id c₁, mkCloneFnBody c₁.destination_group L),
         (calc_func_id c₂, mkCloneFnBody c₂.destination_group L)]) := by
  have hinj : calc_func_id c₁ = calc_func_id c₂ ↔ c₁ = c₂ :=
    ⟨calc_func_id_inj, fun h => by rw [h]⟩
  refine ⟨hinj, fun hp hg => ?_, fun hg => ?_⟩
  · have hc : c₁ = c₂ := by
      cases c₁
      cases c₂
      simp_all
    subst hc
    refine ⟨rfl, ?_, ?_⟩
    · have hany : ((c₁.apply (ShaderWriter.new L)).emittedFns.any
          fun p => p.1 = calc_func_id c₁) = true := by
        rw [apply_new_emittedFns]
        simp
      rw [apply_emittedFns, make_fn_emittedFns_hit _ _ _ hany, apply_new_emittedFns]
    · rw [apply_mainCode, apply_mainCode]
      simp [cloneStmt_fnIdOf, ShaderWriter.new]
  · have hid : calc_func_id c₁ ≠ calc_func_id c₂ := fun h => hg (by rw [calc_func_id_inj h])
    refine ⟨hid, ?_⟩
    have hany : ((c₁.apply (ShaderWriter.new L)).emittedFns.any
        fun p => p.1 = calc_func_id c₂) = false := by
      rw [apply_new_emittedFns]
      simp [hid]
    rw [apply_emittedFns, apply_particleLayout, make_fn_emittedFns_fresh _ _ _ hany,
      apply_new_emittedFns, new_particleLayout]
    rfl

/-- C2 witness: the amended theorem evaluated at two equal clone modifiers
(one emitted function, two call sites) and at two modifiers differing only
in destination group (two distinct ids). -/
theorem C2_func_id_dedup_witness :
    ((CloneModifier.new 1 2).apply ((CloneModifier.new 1 2).apply
        (ShaderWriter.new ⟨[], 0⟩))).emittedFns =
      [(calc_func_id (CloneModifier.new 1 2), mkCloneFnBody 2 ⟨[], 0⟩)] ∧
    calc_func_id (CloneModifier.new 1 2) ≠ calc_func_id (CloneModifier.new 1 3) := by
  have h₁ := (C2_func_id_dedup (CloneModifier.new 1 2) (CloneModifier.new 1 2)
    ⟨[], 0⟩).2.1 rfl rfl
  have h₂ := (C2_func_id_dedup (CloneModifier.new 1 2) (CloneModifier.new 1 3)
    ⟨[], 0⟩).2.2 (by norm_num [CloneModifier.new])
  exact ⟨h₁.2.1, h₂.1⟩

/-- C3 counterexample: `update_groups` performs no phase check — an
Init-only modifier registered through `update_groups` is stored in the
update list instead of aborting registration. -/
theorem C3_counterexample_update_groups_unchecked :
    ((MModifier.generic ModifierContext.Init [] 0).context.contains
      ModifierContext.Update) = false ∧
    (EffectAsset.default.update_groups (MModifier.generic ModifierContext.Init [] 0)
        (ParticleGroupSet.single 1)).update_modifiers =
      [⟨MModifier.generic ModifierContext.Init [] 0, ParticleGroupSet.single 1⟩] :=
  ⟨rfl, rfl⟩

/-- C3 (amended): every registration path except `update_groups` fails
fast when the modifier's declared phase set excludes the target phase;
`update_groups` performs no phase check and stores the modifier as given. -/
theorem C3_registration_phase_checks :
    (∀ (a : EffectAsset) (m : MModifier),
      m.context.contains ModifierContext.Init = false → a.init m = none) ∧
    (∀ (a : EffectAsset) (m : MModifier),
      m.context.contains ModifierContext.Update = false → a.update m = none) ∧
    (∀ (a : EffectAsset) (m : MModifier),
      m.context.contains ModifierContext.Render = false →
        a.render m = none ∧ a.add_render_modifier m = none) ∧
    (∀ (a : EffectAsset) (m : MModifier) (g : ParticleGroupSet),
      m.context.contains ModifierContext.Render = false →
        a.render_groups m g = none ∧ a.add_render_modifier_to_groups m g = none) ∧
    (∀ (a : EffectAsset) (ctx : ModifierContext) (m : MModifier) (g : ParticleGroupSet),
      m.context.contains ctx = false → a.add_modifier_to_groups ctx m g = none) ∧
    (∀ (a : EffectAsset) (ctx : ModifierContext) (m : MModifier),
      a.add_modifier ctx m = a.add_modifier_to_groups ctx m ParticleGroupSet.all) ∧
    (∀ (a : EffectAsset) (m : MModifier) (g : ParticleGroupSet),
      (a.update_groups m g).update_modifiers = a.update_modifiers ++ [⟨m, g⟩]) := by
  refine ⟨?_, ?_, ?_, ?_, ?_, ?_, ?_⟩
  · intro a m h
    simp [EffectAsset.init, h]
  · intro a m h
    simp [EffectAsset.update, h]
  · intro a m h
    exact ⟨by simp [EffectAsset.render, h], by simp [EffectAsset.add_render_modifier, h]⟩
  · intro a m g h
    exact ⟨by simp [EffectAsset.render_groups, h],
      by simp [EffectAsset.add_render_modifier_to_groups, h]⟩
  · intro a ctx m g h
    unfold EffectAsset.add_modifier_to_groups
    split
    · simp [h]
    · rfl
  · intro a ctx m
    rfl
  · intro a m g
    rfl

/-- C3 witness: an Update-only modifier is rejected by `init`, an
Init-only modifier is rejected by `update`, and `update_groups` stores an
Init-only modifier without any check. -/
theorem C3_registration_phase_checks_witness :
    EffectAsset.default.init (MModifier.generic ModifierContext.Update [] 0) = none ∧
    EffectAsset.default.update (MModifier.generic ModifierContext.Init [] 0) = none ∧
    (EffectAsset.default.update_groups (MModifier.generic ModifierContext.Init [] 1)
        ParticleGroupSet.all).update_modifiers =
      [⟨MModifier.generic ModifierContext.Init [] 1, ParticleGroupSet.all⟩] := by
  have h₃ := C3_registration_phase_checks.2.2.2.2.2.2 EffectAsset.default
    (MModifier.generic ModifierContext.Init [] 1) ParticleGroupSet.all
  exact ⟨C3_registration_phase_checks.1 EffectAsset.default _ rfl,
    C3_registration_phase_checks.2.1 EffectAsset.default _ rfl,
    by simpa using h₃⟩

/-- C4: the particle layout depends only on the set of attributes declared
by all registered modifiers — assets whose declared attribute sets are
equal (whatever the registration order, phase distribution or duplicate
declarations) produce equal layouts. -/
theorem C4_particle_layout_set_determined (a₁ a₂ : EffectAsset)
    (h : a₁.attrList.toFinset = a₂.attrList.toFinset) :
    a₁.particle_layout = a₂.particle_layout := by
  unfold EffectAsset.particle_layout
  exact buildLayout_congr_perm (dedup_perm_of_toFinset_eq h)

/-- C4 witness: one asset declaring [position, age] in a single update
modifier and another declaring [age] and [age, position] across two update
modifiers have equal attribute sets, hence equal particle layouts. -/
theorem C4_particle_layout_set_determined_witness :
    (EffectAsset.default.update_groups
      (MModifier.generic ModifierContext.Update
        [Attribute.POSITION, Attribute.AGE] 0) ParticleGroupSet.all).particle_layout =
    ((EffectAsset.default.update_groups
      (MModifier.generic ModifierContext.Update [Attribute.AGE] 1)
        ParticleGroupSet.all).update_groups
      (MModifier.generic ModifierContext.Update
        [Attribute.AGE, Attribute.POSITION] 2) ParticleGroupSet.all).particle_layout :=
  C4_particle_layout_set_determined _ _ (by decide)

/-- C5: decoding the serialized form of any asset reproduces an asset with
equal name, capacities, spawner, 2D layer, simulation space and condition,
alpha mode, motion integration, properties and expression module, and
equal per-phase modifier counts. -/
theorem C5_ron_roundtrip (a : EffectAsset) :
    ∃ a' : EffectAsset, decodeEffectAsset (encodeEffectAsset a) = some a' ∧
      a'.name = a.name ∧ a'.capacities = a.capacities ∧ a'.spawner = a.spawner ∧
      a'.z_layer_2d = a.z_layer_2d ∧ a'.simulation_space = a.simulation_space ∧
      a'.simulation_condition = a.simulation_condition ∧
      a'.alpha_mode = a.alpha_mode ∧ a'.motion_integration = a.motion_integration ∧
      a'.properties = a.properties ∧ a'.module = a.module ∧
      a'.initModifiers.length = a.initModifiers.length ∧
      a'.updateModifiers.length = a.updateModifiers.length ∧
      a'.renderModifiers.length = a.renderModifiers.length :=
  ⟨a, decodeEffectAsset_encode a, rfl, rfl, rfl, rfl, rfl, rfl, rfl, rfl, rfl, rfl,
    rfl, rfl, rfl⟩

/-- C6: the generic registration path accepts only a context equal to
exactly `Init` or exactly `Update` — `Render`, the empty bit-set, and any
multi-bit set are rejected with no modifier stored. -/
theorem C6_add_modifier_single_phase_context (a : EffectAsset)
    (ctx : ModifierContext) (m : MModifier) (g : ParticleGroupSet)
    (h : ctx = ModifierContext.Render ∨ ctx.bitCount = 0 ∨ 1 < ctx.bitCount) :
    a.add_modifier_to_groups ctx m g = none ∧ a.add_modifier ctx m = none := by
  have hne : ¬(ctx = ModifierContext.Init ∨ ctx = ModifierContext.Update) := by
    obtain ⟨i, u, r⟩ := ctx
    cases i <;> cases u <;> cases r <;> revert h <;> decide
  constructor
  · unfold EffectAsset.add_modifier_to_groups
    rw [if_neg hne]
  · unfold EffectAsset.add_modifier EffectAsset.add_modifier_to_groups
    rw [if_neg hne]

/-- C6 witness: a Render context, the zero bit-set, and a two-bit set are
all rejected by the generic path, even for modifiers that declare the
requested phases. -/
theorem C6_add_modifier_single_phase_context_witness :
    EffectAsset.default.add_modifier_to_groups ModifierContext.Render
      (MModifier.generic ModifierContext.Render [] 0) ParticleGroupSet.all = none ∧
    EffectAsset.default.add_modifier ⟨false, false, false⟩
      (MModifier.generic ⟨true, true, false⟩ [] 0) = none ∧
    EffectAsset.default.add_modifier ⟨true, true, false⟩
      (MModifier.generic ⟨true, true, false⟩ [] 0) = none :=
  ⟨(C6_add_modifier_single_phase_context EffectAsset.default ModifierContext.Render
      (MModifier.generic ModifierContext.Render [] 0) ParticleGroupSet.all
      (Or.inl rfl)).1,
   (C6_add_modifier_single_phase_context EffectAsset.default ⟨false, false, false⟩
      (MModifier.generic ⟨true, true, false⟩ [] 0) ParticleGroupSet.all
      (Or.inr (Or.inl rfl))).2,
   (C6_add_modifier_single_phase_context EffectAsset.default ⟨true, true, false⟩
      (MModifier.generic ⟨true, true, false⟩ [] 0) ParticleGroupSet.all
      (Or.inr (Or.inr (by decide)))).2⟩

/-- C7: adding a property whose name is already present fails fast, and
adding a property with a fresh name appends it and makes it findable by
name; `with_property` is the chaining form of `add_property`. -/
theorem C7_add_property_unique_name (a : EffectAsset) (n : String) (v : Value) :
    a.with_property n v = a.add_property n v ∧
    ((a.properties.any fun p => p.name = n) = true → a.add_property n v = none) ∧
    ((a.properties.any fun p => p.name = n) = false →
      a.add_property n v =
        some { a with properties := a.properties ++ [Property.new n v] } ∧
      ∀ a', a.add_property n v = some a' →
        a'.properties.find? (fun p => p.name = n) = some (Property.new n v)) := by
  refine ⟨rfl, fun h => ?_, fun h => ?_⟩
  · simp [EffectAsset.add_property, h]
  · have hadd : a.add_property n v =
        some { a with properties := a.properties ++ [Property.new n v] } := by
      simp [EffectAsset.add_property, h]
    refine ⟨hadd, fun a' ha' => ?_⟩
    rw [hadd] at ha'
    have ha₂ := Option.some.inj ha'
    subst ha₂
    have hnone : a.properties.find? (fun p => p.name = n) = none := by
      rw [List.find?_eq_none]
      intro x hx
      simpa using List.any_eq_false.mp h x hx
    show (a.properties ++ [Property.new n v]).find? (fun p => p.name = n) =
      some (Property.new n v)
    rw [List.find?_append, hnone]
    simp [Property.new]

/-- C7 witness: on an asset that already holds a property "p", a second
add of "p" fails, while adding a fresh "q" appends it and finds it. -/
theorem C7_add_property_unique_name_witness :
    ({ EffectAsset.default with
        properties := [Property.new "p" (Value.scalar 1)] } : EffectAsset).add_property
      "p" (Value.scalar 2) = none ∧
    EffectAsset.default.add_property "q" (Value.scalar 3) =
      some { EffectAsset.default with properties := [Property.new "q" (Value.scalar 3)] } := by
  constructor
  · exact (C7_add_property_unique_name _ "p" (Value.scalar 2)).2.1 (by decide)
  · have h := ((C7_add_property_unique_name EffectAsset.default "q"
      (Value.scalar 3)).2.2 (by decide)).1
    simpa using h

/-- C8 counterexample: `EffectAsset::new` performs no validation, so an
asset whose capacities hold a zero entry is constructible — `capacities()`
is not always non-zero. -/
theorem C8_counterexample_zero_capacity_constructible :
    (EffectAsset.new [0] Spawner.default []).capacities = [0] ∧
    0 ∈ (EffectAsset.new [0] Spawner.default []).capacities := by
  refine ⟨rfl, ?_⟩
  show 0 ∈ [0]
  simp

/-- C8 (amended): `capacities()` returns exactly the vector passed to
`new`, and no builder operation changes it; non-zero capacities are a
documented caller obligation, not an enforced invariant. -/
theorem C8_capacities_immutable :
    (∀ (caps : List Nat) (sp : Spawner) (mo : Module),
      (EffectAsset.new caps sp mo).capacities = caps) ∧
    (∀ (a : EffectAsset) (n : String), (a.with_name n).capacities = a.capacities) ∧
    (∀ (a : EffectAsset) (sc : SimulationCondition),
      (a.with_simulation_condition sc).capacities = a.capacities) ∧
    (∀ (a : EffectAsset) (ss : SimulationSpace),
      (a.with_simulation_space ss).capacities = a.capacities) ∧
    (∀ (a : EffectAsset) (am : AlphaMode),
      (a.with_alpha_mode am).capacities = a.capacities) ∧
    (∀ (a : EffectAsset) (m : MModifier) (g : ParticleGroupSet),
      (a.update_groups m g).capacities = a.capacities) ∧
    (∀ (a : EffectAsset) (n : String) (v : Value) (a' : EffectAsset),
      a.add_property n v = some a' → a'.capacities = a.capacities) ∧
    (∀ (a : EffectAsset) (m : MModifier) (a' : EffectAsset),
      a.init m = some a' → a'.capacities = a.capacities) ∧
    (∀ (a : EffectAsset) (m : MModifier) (a' : EffectAsset),
      a.update m = some a' → a'.capacities = a.capacities) ∧
    (∀ (a : EffectAsset) (ctx : ModifierContext) (m : MModifier)
        (g : ParticleGroupSet) (a' : EffectAsset),
      a.add_modifier_to_groups ctx m g = some a' → a'.capacities = a.capacities) ∧
    (∀ (a : EffectAsset) (m : MModifier) (a' : EffectAsset),
      a.render m = some a' → a'.capacities = a.capacities) ∧
    (∀ (a : EffectAsset) (m : MModifier) (g : ParticleGroupSet) (a' : EffectAsset),
      a.render_groups m g = some a' → a'.capacities = a.capacities) ∧
    (∀ (a : EffectAsset) (m : MModifier) (a' : EffectAsset),
      a.add_render_modifier m = some a' → a'.capacities = a.capacities) ∧
    (∀ (a : EffectAsset) (m : MModifier) (g : ParticleGroupSet) (a' : EffectAsset),
      a.add_render_modifier_to_groups m g = some a' → a'.capacities = a.capacities) := by
  refine ⟨fun caps sp mo => rfl, fun a n => rfl, fun a sc => rfl, fun a ss => rfl,
    fun a am => rfl, fun a m g => rfl, ?_, ?_, ?_, ?_, ?_, ?_, ?_, ?_⟩
  · intro a n v a' h
    unfold EffectAsset.add_property at h
    split at h
    · exact Option.noConfusion h
    · have e := Option.some.inj h
      subst e
      rfl
  · intro a m a' h
    unfold EffectAsset.init at h
    split at h
    · have e := Option.some.inj h
      subst e
      rfl
    · exact Option.noConfusion h
  · intro a m a' h
    unfold EffectAsset.update at h
    split at h
    · have e := Option.some.inj h
      subst e
      rfl
    · exact Option.noConfusion h
  · intro a ctx m g a' h
    unfold EffectAsset.add_modifier_to_groups at h
    split at h
    · split at h
      · split at h
        · have e := Option.some.inj h
          subst e
          rfl
        · have e := Option.some.inj h
          subst e
          rfl
      · exact Option.noConfusion h
    · exact Option.noConfusion h
  · intro a m a' h
    unfold EffectAsset.render at h
    split at h
    · have e := Option.some.inj h
      subst e
      rfl
    · exact Option.noConfusion h
  · intro a m g a' h
    unfold EffectAsset.render_groups at h
    split at h
    · have e := Option.some.inj h
      subst e
      rfl
    · exact Option.noConfusion h
  · intro a m a' h
    unfold EffectAsset.add_render_modifier at h
    split at h
    · have e := Option.some.inj h
      subst e
      rfl
    · exact Option.noConfusion h
  · intro a m g a' h
    unfold EffectAsset.add_render_modifier_to_groups at h
    split at h
    · have e := Option.some.inj h
      subst e
      rfl
    · exact Option.noConfusion h

/-- C8 witness: a concrete asset built by `new`, mutated through
`update_groups` and `add_property`, keeps its capacities. -/
theorem C8_capacities_immutable_witness :
    (EffectAsset.new [4096] Spawner.default []).capacities = [4096] ∧
    ((EffectAsset.new [4096] Spawner.default []).update_groups
      (MModifier.generic ModifierContext.Update [] 0)
      ParticleGroupSet.all).capacities = [4096] ∧
    ({ EffectAsset.new [4096] Spawner.default [] with
        properties := [Property.new "p" (Value.scalar 1)] } : EffectAsset).capacities =
      [4096] := by
  have h₁ := C8_capacities_immutable.1 [4096] Spawner.default []
  have h₂ := (C8_capacities_immutable.2.2.2.2.2.1 (EffectAsset.new [4096]
    Spawner.default []) (MModifier.generic ModifierContext.Update [] 0)
    ParticleGroupSet.all).trans h₁
  have h₃ := (C8_capacities_immutable.2.2.2.2.2.2.1 (EffectAsset.new [4096]
    Spawner.default []) "p" (Value.scalar 1)
    { EffectAsset.new [4096] Spawner.default [] with
        properties := [Property.new "p" (Value.scalar 1)] } (by rfl)).trans h₁
  exact ⟨h₁, h₂, h₃⟩

/-- C9: the accessors return only modifiers whose declared phase set holds
the corresponding phase (and, for the group variant, stored with a mask
holding the group); a modifier stored through the unchecked
`update_groups` path with a context excluding Update is never returned. -/
theorem C9_accessor_phase_filter :
    (∀ (a : EffectAsset) (m : MModifier), m ∈ a.initModifiers →
      m.context.contains ModifierContext.Init = true) ∧
    (∀ (a : EffectAsset) (m : MModifier), m ∈ a.updateModifiers →
      m.context.contains ModifierContext.Update = true) ∧
    (∀ (a : EffectAsset) (g : Nat) (m : MModifier), m ∈ a.updateModifiersForGroup g →
      m.context.contains ModifierContext.Update = true ∧
      ∃ gm, gm ∈ a.update_modifiers ∧ gm.modifier = m ∧ gm.groups.contains g = true) ∧
    (∀ (a : EffectAsset) (m : MModifier) (g : ParticleGroupSet),
      m.context.contains ModifierContext.Update = false →
      (a.update_groups m g).updateModifiers = a.updateModifiers ∧
      ∀ g', (a.update_groups m g).updateModifiersForGroup g' =
        a.updateModifiersForGroup g') := by
  refine ⟨?_, ?_, ?_, ?_⟩
  · intro a m hm
    simp only [EffectAsset.initModifiers, List.mem_map, List.mem_filter] at hm
    obtain ⟨gm, ⟨_, hc⟩, rfl⟩ := hm
    exact hc
  · intro a m hm
    simp only [EffectAsset.updateModifiers, List.mem_map, List.mem_filter] at hm
    obtain ⟨gm, ⟨_, hc⟩, rfl⟩ := hm
    exact hc
  · intro a g m hm
    simp only [EffectAsset.updateModifiersForGroup, List.mem_map, List.mem_filter,
      Bool.and_eq_true] at hm
    obtain ⟨gm, ⟨hmem, hg, hc⟩, rfl⟩ := hm
    exact ⟨hc, gm, hmem, rfl, hg⟩
  · intro a m g h
    constructor
    · simp [EffectAsset.update_groups, EffectAsset.updateModifiers,
        List.filter_append, h]
    · intro g'
      simp [EffectAsset.update_groups, EffectAsset.updateModifiersForGroup,
        List.filter_append, h]

/-- C9 witness: an Update-declaring modifier stored via `update_groups` is
seen by the accessor with an Update context, and an Init-only modifier
stored the same way is invisible to the update accessor. -/
theorem C9_accessor_phase_filter_witness :
    (MModifier.generic ModifierContext.Update [] 7).context.contains
      ModifierContext.Update = true ∧
    (EffectAsset.default.update_groups (MModifier.generic ModifierContext.Init [] 3)
        ParticleGroupSet.all).updateModifiers =
      EffectAsset.default.updateModifiers := by
  constructor
  · exact C9_accessor_phase_filter.2.1
      (EffectAsset.default.update_groups (MModifier.generic ModifierContext.Update [] 7)
        ParticleGroupSet.all)
      (MModifier.generic ModifierContext.Update [] 7) (by decide)
  · exact (C9_accessor_phase_filter.2.2.2 EffectAsset.default
      (MModifier.generic ModifierContext.Init [] 3) ParticleGroupSet.all rfl).1

/-- C10: a clone modifier declares no attributes, so it never contributes
to the particle layout; the generated duplication body carries the
AGE-reset statement exactly when the active particle layout holds AGE. -/
theorem C10_clone_declares_no_attributes (c : CloneModifier) (a : EffectAsset)
    (g : ParticleGroupSet) (L : ParticleLayout) (d : Nat) :
    (MModifier.clone c).attributes = [] ∧
    (a.update_groups (MModifier.clone c) g).attrList = a.attrList ∧
    (a.update_groups (MModifier.clone c) g).particle_layout = a.particle_layout ∧
    (L.containsAttr Attribute.AGE = true →
      (mkCloneFnBody d L).ageResetCode =
        "particle_buffer.particles[index].age = 0.0;") ∧
    (L.containsAttr Attribute.AGE = false → (mkCloneFnBody d L).ageResetCode = "") ∧
    (c.apply (ShaderWriter.new L)).emittedFns =
      [(calc_func_id c, mkCloneFnBody c.destination_group L)] := by
  have hattr : (a.update_groups (MModifier.clone c) g).attrList = a.attrList := by
    simp [EffectAsset.update_groups, EffectAsset.attrList, EffectAsset.modifiers,
      MModifier.attributes]
  refine ⟨rfl, hattr, ?_, fun h => ?_, fun h => ?_, apply_new_emittedFns c L⟩
  · unfold EffectAsset.particle_layout
    rw [hattr]
  · simp [mkCloneFnBody, ageResetCode, h]
  · simp [mkCloneFnBody, ageResetCode, h]

/-- C10 witness: an AGE-bearing layout produces the reset statement and an
empty layout produces none; the clone modifier declares no attributes. -/
theorem C10_clone_declares_no_attributes_witness :
    (MModifier.clone (CloneModifier.new 1 1)).attributes = [] ∧
    (mkCloneFnBody 1 ⟨[⟨"age", 0, 4, 4⟩], 4⟩).ageResetCode =
      "particle_buffer.particles[index].age = 0.0;" ∧
    (mkCloneFnBody 1 ⟨[], 0⟩).ageResetCode = "" := by
  have h := C10_clone_declares_no_attributes (CloneModifier.new 1 1)
    EffectAsset.default ParticleGroupSet.all ⟨[⟨"age", 0, 4, 4⟩], 4⟩ 1
  have h₂ := C10_clone_declares_no_attributes (CloneModifier.new 1 1)
    EffectAsset.default ParticleGroupSet.all ⟨[], 0⟩ 1
  exact ⟨h.1, h.2.2.2.1 (by decide), h₂.2.2.2.2.1 (by decide)⟩

end Hanabi
